import Mathlib

/-!
Verification of the Food_Share backend: a shallow embedding of the
food-listing lifecycle (create / read / update / delete / claim / complete)
and of the notification store, translated from `src/backend/routes/food.js`,
`src/backend/routes/users.js`, `src/backend/models/Food.js` and the
Notification model, together with theorems settling the frozen claims
about that code.

Modelling conventions:
- Mongo ObjectIds are modelled as `Nat`.
- Timestamps are modelled as `Nat` milliseconds.
- The Mongo document store is a `DB` record holding the list of food
  documents and the list of notification documents; `Model.create`
  appends, `document.save()` replaces by id, `deleteOne` removes the
  document.
- Each Express handler becomes a function `DB → args → DB × Except HErr r`:
  the handler's early-return error paths return the store unchanged
  together with the HTTP error (status code and message) the code sends.
- Socket.IO pushes are fire-and-forget and persist nothing; they are not
  part of the store state and are omitted.
-/

namespace FoodShare

/-- Listing lifecycle status, from the `status` enum of `foodSchema`
(`src/backend/models/Food.js`): `['available', 'claimed', 'completed']`,
default `'available'`. -/
inductive Status where
  | available
  | claimed
  | completed
deriving DecidableEq, Repr

/-- Notification type, from the `type` enum of `notificationSchema`:
`['claim_request', 'food_shared', 'claim_accepted', 'food_completed']`. -/
inductive NotifType where
  | claim_request
  | food_shared
  | claim_accepted
  | food_completed
deriving DecidableEq, Repr

/-- A food document, from `foodSchema` in `src/backend/models/Food.js`.
`fid` is the Mongo `_id`; `createdAt` comes from `timestamps: true`.
`latitude`/`longitude` default to `null` (`Option`); `claimedBy` defaults
to `null`; `photo` and `description` default to `''`. -/
structure Food where
  fid : Nat
  name : String
  description : String
  photo : String
  address : String
  latitude : Option Int
  longitude : Option Int
  status : Status
  donor : Nat
  claimedBy : Option Nat
  expiresAt : Nat
  createdAt : Nat
deriving DecidableEq, Repr

/-- A notification document, from `notificationSchema`
(`src/backend/models/Notification.js`): recipient `user`, `type`,
`message`, optional related `food` and `fromUser`, `read` defaulting to
`false`, and `createdAt` from `timestamps: true`. -/
structure Notification where
  nid : Nat
  user : Nat
  ntype : NotifType
  message : String
  food : Option Nat
  fromUser : Option Nat
  read : Bool
  createdAt : Nat
deriving DecidableEq, Repr

/-- The persistent store: the two Mongo collections, fresh-id counters for
document creation, and the current clock used for `timestamps: true` and
for the `expiresAt` default. -/
structure DB where
  foods : List Food
  notifs : List Notification
  nextFoodId : Nat
  nextNotifId : Nat
  now : Nat
deriving DecidableEq, Repr

/-- The empty store. -/
def DB.empty : DB := ⟨[], [], 0, 0, 0⟩

/-- An HTTP error response: the status code and message the handler sends. -/
structure HErr where
  code : Nat
  msg : String
deriving DecidableEq, Repr

/-- Error response `res.status(404).json({ message: 'Food listing not found' })`. -/
def foodNotFoundErr : HErr := ⟨404, "Food listing not found"⟩

/-- Error response `res.status(400).json({ message: 'This food has already been claimed' })`. -/
def alreadyClaimedErr : HErr := ⟨400, "This food has already been claimed"⟩

/-- Error response `res.status(400).json({ message: 'You cannot claim your own food' })`. -/
def cannotClaimOwnErr : HErr := ⟨400, "You cannot claim your own food"⟩

/-- Error response `res.status(403).json({ message: 'Not authorized to update this listing' })`. -/
def notAuthorizedUpdateErr : HErr := ⟨403, "Not authorized to update this listing"⟩

/-- Error response `res.status(403).json({ message: 'Not authorized to delete this listing' })`. -/
def notAuthorizedDeleteErr : HErr := ⟨403, "Not authorized to delete this listing"⟩

/-- Error response `res.status(403).json({ message: 'Only the donor can mark as completed' })`. -/
def onlyDonorCompleteErr : HErr := ⟨403, "Only the donor can mark as completed"⟩

/-- Error response `res.status(400).json({ message: 'Food must be claimed before completing' })`. -/
def mustBeClaimedErr : HErr := ⟨400, "Food must be claimed before completing"⟩

/-- Error response `res.status(400).json({ message: 'Please provide food name and address' })`. -/
def provideNameAddressErr : HErr := ⟨400, "Please provide food name and address"⟩

/-- Error response `res.status(500).json({ message: 'Server error creating food listing' })` —
the catch-all hit when `Food.create` rejects (schema validation failure). -/
def createServerErr : HErr := ⟨500, "Server error creating food listing"⟩

/-- Error response `res.status(500).json({ message: 'Server error' })` —
the catch-all of the other handlers, hit e.g. when `findByIdAndUpdate`
with `runValidators: true` rejects an update. -/
def serverErr : HErr := ⟨500, "Server error"⟩

/-- Lookup `Food.findById(id)`: the document whose `_id` matches, if any. -/
def findFood (db : DB) (id : Nat) : Option Food :=
  db.foods.find? (fun f => f.fid = id)

/-- Model of `food.save()` after mutating a loaded document: write the document
back over the stored one with the same `_id`. -/
def saveFood (foods : List Food) (f : Food) : List Food :=
  foods.map (fun g => if g.fid = f.fid then f else g)

/-- The sort key of `.sort({ createdAt: -1 })`: `a` before `b` when
`a.createdAt ≥ b.createdAt`. -/
def byCreatedAtDesc (a b : Food) : Prop := b.createdAt ≤ a.createdAt

instance : DecidableRel byCreatedAtDesc :=
  fun a b => Nat.decLe b.createdAt a.createdAt

instance : IsTotal Food byCreatedAtDesc :=
  ⟨fun a b => Nat.le_total b.createdAt a.createdAt⟩

instance : IsTrans Food byCreatedAtDesc :=
  ⟨fun _ _ _ h1 h2 => Nat.le_trans h2 h1⟩

/-- Handler `GET /api/food`: `Food.find({ status: 'available' }).sort({ createdAt: -1 })`
(`src/backend/routes/food.js`, lines 41–52). -/
def listAvailable (db : DB) : List Food :=
  List.insertionSort byCreatedAtDesc
    (db.foods.filter (fun f => f.status = Status.available))

/-- Handler `GET /api/food/:id`: `Food.findById`, 404 when absent
(`src/backend/routes/food.js`, lines 73–87). -/
def getFood (db : DB) (id : Nat) : Except HErr Food :=
  match findFood db id with
  | none => Except.error foodNotFoundErr
  | some f => Except.ok f

/-- The request body of `POST /api/food` (multipart fields; any of them
may be absent). `photo` stands for the uploaded file's stored path, when
a file was sent. -/
structure CreateReq where
  name : Option String
  description : Option String
  address : Option String
  latitude : Option Int
  longitude : Option Int
  photo : Option String
deriving DecidableEq, Repr

/-- JavaScript falsiness for an optional body string: `!x` is true when
the field is absent (`undefined`) or the empty string. -/
def falsyStr : Option String → Bool
  | none => true
  | some s => s = ""

/-- The `trim` setter of `foodSchema`'s string paths: drop whitespace from
both ends (structurally, over the character list, so that the kernel can
evaluate it). -/
def trimStr (s : String) : String :=
  String.mk
    (((s.data.dropWhile Char.isWhitespace).reverse.dropWhile
      Char.isWhitespace).reverse)

/-- The `foodSchema` validation that `Food.create` applies: `trim` setters
on `name`, `description`, `address`, then `required` (non-empty) on `name`
and `address` and `maxlength` 100 / 500 on `name` / `description`. -/
def schemaOk (name description address : String) : Bool :=
  trimStr name ≠ "" && (trimStr name).length ≤ 100 &&
    (trimStr description).length ≤ 500 && trimStr address ≠ ""

/-- Handler `POST /api/food` (`src/backend/routes/food.js`, lines 92–130): 400 when
`!name || !address`; then `Food.create` with `description || ''`, the
caller as `donor`, and the schema defaults `status: 'available'`,
`claimedBy: null`, `expiresAt: now + 24h`; a schema validation rejection
is caught as a 500. -/
def createFood (db : DB) (uid : Nat) (req : CreateReq) : DB × Except HErr Food :=
  if falsyStr req.name || falsyStr req.address then
    (db, Except.error provideNameAddressErr)
  else
    let name := (req.name.getD "")
    let description := (req.description.getD "")
    let address := (req.address.getD "")
    if schemaOk name description address then
      let f : Food :=
        { fid := db.nextFoodId
          name := trimStr name
          description := trimStr description
          photo := req.photo.getD ""
          address := trimStr address
          latitude := req.latitude
          longitude := req.longitude
          status := Status.available
          donor := uid
          claimedBy := none
          expiresAt := db.now + 24 * 60 * 60 * 1000
          createdAt := db.now }
      ({ db with foods := db.foods ++ [f], nextFoodId := db.nextFoodId + 1 },
        Except.ok f)
    else
      (db, Except.error createServerErr)

/-- The request body of `PUT /api/food/:id`: `updates = { ...req.body }`
spreads every field the client sent; a present field is `some`, an absent
one is `none`. `claimedBy`, `latitude` and `longitude` are nullable, so a
present value may itself be `null` (inner `Option`). -/
structure UpdateReq where
  name : Option String
  description : Option String
  address : Option String
  photo : Option String
  latitude : Option (Option Int)
  longitude : Option (Option Int)
  status : Option Status
  claimedBy : Option (Option Nat)
deriving DecidableEq, Repr

/-- The `trim` setters that `findByIdAndUpdate` applies to the update's
string schema paths (`name`, `description`, `address` carry `trim: true`
in `foodSchema`); other paths have no setters. -/
def trimReq (p : UpdateReq) : UpdateReq :=
  { p with
    name := p.name.map trimStr
    description := p.description.map trimStr
    address := p.address.map trimStr }

/-- The update validators that `runValidators: true` runs on the patched
paths only: `required`/`maxlength: 100` on `name`, `maxlength: 500` on
`description`, `required` on `address` (each checked on the
setter-trimmed value); `status` is enum-checked, which the typed `Status`
field makes vacuous; absent paths are not validated. -/
def updateOk (p : UpdateReq) : Bool :=
  (match p.name with
   | none => true
   | some n => trimStr n ≠ "" && (trimStr n).length ≤ 100) &&
  (match p.description with
   | none => true
   | some d => (trimStr d).length ≤ 500) &&
  (match p.address with
   | none => true
   | some a => trimStr a ≠ "")

/-- Model of the write of `findByIdAndUpdate(id, updates)` once setters
and validators have run: each field present in the (setter-processed)
body is written over the stored document's field; absent fields are
untouched. -/
def applyUpdates (f : Food) (p : UpdateReq) : Food :=
  { f with
    name := p.name.getD f.name
    description := p.description.getD f.description
    address := p.address.getD f.address
    photo := p.photo.getD f.photo
    latitude := p.latitude.getD f.latitude
    longitude := p.longitude.getD f.longitude
    status := p.status.getD f.status
    claimedBy := p.claimedBy.getD f.claimedBy }

/-- Handler `PUT /api/food/:id` (`src/backend/routes/food.js`, lines 135–161):
404 when absent, 403 unless the caller is the donor, then
`findByIdAndUpdate(id, { ...req.body }, { new: true, runValidators: true })`:
when a patched path fails an update validator the call throws, the catch
returns 500 and nothing is written; otherwise the trimmed patch is
written over the document. -/
def updateFood (db : DB) (uid : Nat) (id : Nat) (p : UpdateReq) :
    DB × Except HErr Food :=
  match findFood db id with
  | none => (db, Except.error foodNotFoundErr)
  | some f =>
    if f.donor ≠ uid then
      (db, Except.error notAuthorizedUpdateErr)
    else if updateOk p then
      let f' := applyUpdates f (trimReq p)
      ({ db with foods := saveFood db.foods f' }, Except.ok f')
    else
      (db, Except.error serverErr)

/-- Handler `DELETE /api/food/:id` (`src/backend/routes/food.js`, lines 166–183):
404 when absent, 403 unless the caller is the donor, then
`food.deleteOne()` removes that document — no status check. -/
def deleteFood (db : DB) (uid : Nat) (id : Nat) : DB × Except HErr Unit :=
  match findFood db id with
  | none => (db, Except.error foodNotFoundErr)
  | some f =>
    if f.donor ≠ uid then
      (db, Except.error notAuthorizedDeleteErr)
    else
      ({ db with foods := db.foods.eraseP (fun g => g.fid = f.fid) },
        Except.ok ())

/-- The `claim_request` notification document built by the claim handler:
`Notification.create({ user: food.donor._id, type: 'claim_request',
message: `${req.user.name} claimed your "${food.name}"`, food: food._id,
fromUser: req.user._id })`, with the schema default `read: false`. -/
def mkClaimNotif (db : DB) (f : Food) (uid : Nat) (userName : String) :
    Notification :=
  { nid := db.nextNotifId
    user := f.donor
    ntype := NotifType.claim_request
    message := userName ++ " claimed your \"" ++ f.name ++ "\""
    food := some f.fid
    fromUser := some uid
    read := false
    createdAt := db.now }

/-- The part of `POST /api/food/:id/claim` after the `await Food.findById`
suspension point, acting on the document snapshot `f` that the load
returned: the status / own-listing checks, `food.save()` and the
`claim_request` notification write (`src/backend/routes/food.js`,
lines 196–227). -/
def claimChecksAndWrite (db : DB) (f : Food) (uid : Nat) (userName : String) :
    DB × Except HErr Food :=
  if f.status ≠ Status.available then
    (db, Except.error alreadyClaimedErr)
  else if f.donor = uid then
    (db, Except.error cannotClaimOwnErr)
  else
    let f' := { f with status := Status.claimed, claimedBy := some uid }
    ({ db with
        foods := saveFood db.foods f'
        notifs := db.notifs ++ [mkClaimNotif db f' uid userName]
        nextNotifId := db.nextNotifId + 1 },
      Except.ok f')

/-- Handler `POST /api/food/:id/claim` (`src/backend/routes/food.js`, lines
188–232), run without interference: load, then checks and write. -/
def claimFood (db : DB) (uid : Nat) (userName : String) (id : Nat) :
    DB × Except HErr Food :=
  match findFood db id with
  | none => (db, Except.error foodNotFoundErr)
  | some f => claimChecksAndWrite db f uid userName

/-- The `food_completed` notification document built by the complete
handler: `Notification.create({ user: food.claimedBy, type:
'food_completed', message: `Pickup completed for "${food.name}"`,
food: food._id, fromUser: req.user._id })`. -/
def mkCompleteNotif (db : DB) (f : Food) (claimer uid : Nat) : Notification :=
  { nid := db.nextNotifId
    user := claimer
    ntype := NotifType.food_completed
    message := "Pickup completed for \"" ++ f.name ++ "\""
    food := some f.fid
    fromUser := some uid
    read := false
    createdAt := db.now }

/-- Handler `PUT /api/food/:id/complete` (`src/backend/routes/food.js`, lines
237–279): 404 when absent, 403 unless the caller is the donor, 400 unless
`status == 'claimed'`; then `status = 'completed'`, `save()`, and — only
`if (food.claimedBy)` — a `food_completed` notification to the claimer. -/
def completeFood (db : DB) (uid : Nat) (id : Nat) : DB × Except HErr Food :=
  match findFood db id with
  | none => (db, Except.error foodNotFoundErr)
  | some f =>
    if f.donor ≠ uid then
      (db, Except.error onlyDonorCompleteErr)
    else if f.status ≠ Status.claimed then
      (db, Except.error mustBeClaimedErr)
    else
      let f' := { f with status := Status.completed }
      match f'.claimedBy with
      | some claimer =>
        ({ db with
            foods := saveFood db.foods f'
            notifs := db.notifs ++ [mkCompleteNotif db f' claimer uid]
            nextNotifId := db.nextNotifId + 1 },
          Except.ok f')
      | none =>
        ({ db with foods := saveFood db.foods f' }, Except.ok f')

/-- Handler `GET /api/notifications` unread count:
`Notification.countDocuments({ user: uid, read: false })`. -/
def unreadCount (db : DB) (uid : Nat) : Nat :=
  (db.notifs.filter (fun n => n.user = uid && n.read = false)).length

/-- The effect of `updateMany({ user: uid, read: false }, { read: true })`
on one stored notification document: matched documents get `read: true`,
the rest are untouched. -/
def markOne (uid : Nat) (n : Notification) : Notification :=
  if n.user = uid && n.read = false then { n with read := true } else n

/-- Handler `PUT /api/notifications/read-all`:
`Notification.updateMany({ user: uid, read: false }, { read: true })`. -/
def markAllRead (db : DB) (uid : Nat) : DB :=
  { db with notifs := db.notifs.map (markOne uid) }

/-- One inbound mutating request against the listing store, used to state
reachability and mutation-invariant claims: the five food operations plus
the notification bulk-read, each with its authenticated caller. -/
inductive Op where
  | create (uid : Nat) (req : CreateReq)
  | update (uid : Nat) (id : Nat) (p : UpdateReq)
  | del (uid : Nat) (id : Nat)
  | claim (uid : Nat) (userName : String) (id : Nat)
  | complete (uid : Nat) (id : Nat)
  | readAll (uid : Nat)
deriving Repr

/-- Apply one request to the store, discarding the HTTP response. -/
def applyOp (db : DB) : Op → DB
  | Op.create uid req => (createFood db uid req).1
  | Op.update uid id p => (updateFood db uid id p).1
  | Op.del uid id => (deleteFood db uid id).1
  | Op.claim uid userName id => (claimFood db uid userName id).1
  | Op.complete uid id => (completeFood db uid id).1
  | Op.readAll uid => markAllRead db uid

/-- Run a request sequence from a store. -/
def runOps (db : DB) (ops : List Op) : DB :=
  ops.foldl applyOp db

/-- Whether a status is `claimed` or `completed`. -/
def claimedOrCompleted : Status → Bool
  | Status.available => false
  | Status.claimed => true
  | Status.completed => true

/-- The spec's data-model invariant for one listing: `claimerId` is
non-null iff `status ∈ {claimed, completed}`. -/
def listingInv (f : Food) : Bool :=
  f.claimedBy.isSome = claimedOrCompleted f.status

/-- The invariant over the whole store. -/
def dbInv (db : DB) : Bool :=
  db.foods.all listingInv

/-! ## Theorems -/

/-- Claim C7: For every store state — hence for every state reachable by any
sequence of operations — `listAvailable` is sorted by `createdAt`
descending and contains exactly the stored listings whose status is
`available` (so it never includes a listing of any other status). -/
theorem listAvailable_spec (db : DB) :
    List.Sorted byCreatedAtDesc (listAvailable db) ∧
    ∀ f, f ∈ listAvailable db ↔ f ∈ db.foods ∧ f.status = Status.available := by
  constructor
  · exact List.sorted_insertionSort byCreatedAtDesc _
  · intro f
    rw [listAvailable, (List.perm_insertionSort byCreatedAtDesc _).mem_iff,
      List.mem_filter]
    simp

/-- The function `markOne` never changes the owner of a notification. -/
theorem markOne_user (uid : Nat) (n : Notification) :
    (markOne uid n).user = n.user := by
  unfold markOne
  split <;> rfl

/-- A notification owned by `uid` is read after `markOne`. -/
theorem markOne_read_of_user (uid : Nat) (n : Notification)
    (h : n.user = uid) : (markOne uid n).read = true := by
  unfold markOne
  cases hr : n.read <;> simp [h, hr]

/-- The function `markOne` leaves other users' notifications untouched. -/
theorem markOne_of_ne (uid : Nat) (n : Notification) (h : n.user ≠ uid) :
    markOne uid n = n := by
  unfold markOne
  simp [h]

/-- The function `markOne` is idempotent on a single document. -/
theorem markOne_idem (uid : Nat) (n : Notification) :
    markOne uid (markOne uid n) = markOne uid n := by
  unfold markOne
  by_cases hu : n.user = uid <;> cases hr : n.read <;> simp [hu, hr]

/-- Claim C8: After `markAllRead(userId)`: the user's unread count is `0`,
every notification owned by the user is read, other users' notifications
are unchanged, and running `markAllRead` again changes nothing
(idempotence). -/
theorem markAllRead_spec (db : DB) (uid : Nat) :
    unreadCount (markAllRead db uid) uid = 0 ∧
    (∀ n ∈ (markAllRead db uid).notifs, n.user = uid → n.read = true) ∧
    (markAllRead db uid).notifs.filter (fun n => n.user ≠ uid) =
      db.notifs.filter (fun n => n.user ≠ uid) ∧
    markAllRead (markAllRead db uid) uid = markAllRead db uid := by
  refine ⟨?_, ?_, ?_, ?_⟩
  · rw [unreadCount, List.length_eq_zero, List.filter_eq_nil_iff]
    intro n hn
    rw [markAllRead] at hn
    simp only [List.mem_map] at hn
    obtain ⟨m, _, rfl⟩ := hn
    by_cases hu : m.user = uid
    · simp [markOne_read_of_user uid m hu]
    · simp [markOne_of_ne uid m hu, hu]
  · intro n hn hu
    rw [markAllRead] at hn
    simp only [List.mem_map] at hn
    obtain ⟨m, _, rfl⟩ := hn
    by_cases hm : m.user = uid
    · exact markOne_read_of_user uid m hm
    · rw [markOne_user] at hu
      exact absurd hu hm
  · rw [markAllRead]
    induction db.notifs with
    | nil => rfl
    | cons m t ih =>
      by_cases hm : m.user = uid
      · simp only [List.map_cons, List.filter_cons, markOne_user, hm]
        simpa using ih
      · simp only [List.map_cons, List.filter_cons, markOne_of_ne uid m hm, hm]
        simpa [hm] using ih
  · simp only [markAllRead, List.map_map]
    congr 1
    exact List.map_congr_left (fun n _ => markOne_idem uid n)

/-- An unread notification for user 1. -/
def nW1 : Notification :=
  ⟨0, 1, NotifType.claim_request, "m1", some 0, some 2, false, 0⟩

/-- An unread notification for user 2. -/
def nW2 : Notification :=
  ⟨1, 2, NotifType.food_completed, "m2", some 0, some 1, false, 1⟩

/-- A store holding `nW1` and `nW2`. -/
def dbW : DB := ⟨[], [nW1, nW2], 0, 2, 5⟩

/-- Witness: `markAllRead_spec` at a concrete input — user 1 marks all
read in `dbW`. -/
theorem markAllRead_spec_witness :
    unreadCount (markAllRead dbW 1) 1 = 0 ∧
    ({ nW1 with read := true } : Notification).read = true ∧
    (markAllRead dbW 1).notifs.filter (fun n => n.user ≠ 1) =
      dbW.notifs.filter (fun n => n.user ≠ 1) ∧
    markAllRead (markAllRead dbW 1) 1 = markAllRead dbW 1 :=
  ⟨(markAllRead_spec dbW 1).1,
   (markAllRead_spec dbW 1).2.1 { nW1 with read := true } (by decide)
     (by decide),
   (markAllRead_spec dbW 1).2.2.1,
   (markAllRead_spec dbW 1).2.2.2⟩

/-- Witness: `listAvailable_spec` at a concrete input. -/
theorem listAvailable_spec_witness :
    List.Sorted byCreatedAtDesc (listAvailable dbW) ∧
    ∀ f, f ∈ listAvailable dbW ↔ f ∈ dbW.foods ∧ f.status = Status.available :=
  listAvailable_spec dbW

/-- Claim C1: `POST /:id/claim`: 404 when no listing has the id; else 400
"already claimed" when the status is not `available`; else 400 "cannot
claim own" when the donor is the caller; else it persists
`status = claimed`, `claimedBy = caller`, appends a `claim_request`
notification to the donor referencing the listing and the claimer as
actor, and returns the updated listing. (The spec names the own-listing
error `Forbidden`, delivered as HTTP 400 per its §6/§8.) -/
theorem claim_spec (db : DB) (uid : Nat) (userName : String) (id : Nat) :
    (findFood db id = none →
      claimFood db uid userName id = (db, Except.error foodNotFoundErr)) ∧
    (∀ f, findFood db id = some f → f.status ≠ Status.available →
      claimFood db uid userName id = (db, Except.error alreadyClaimedErr)) ∧
    (∀ f, findFood db id = some f → f.status = Status.available →
      f.donor = uid →
      claimFood db uid userName id = (db, Except.error cannotClaimOwnErr)) ∧
    (∀ f, findFood db id = some f → f.status = Status.available →
      f.donor ≠ uid →
      claimFood db uid userName id =
        ({ db with
            foods := saveFood db.foods
              { f with status := Status.claimed, claimedBy := some uid }
            notifs := db.notifs ++
              [mkClaimNotif db
                { f with status := Status.claimed, claimedBy := some uid }
                uid userName]
            nextNotifId := db.nextNotifId + 1 },
          Except.ok { f with status := Status.claimed, claimedBy := some uid })) := by
  refine ⟨?_, ?_, ?_, ?_⟩
  · intro h
    simp [claimFood, h]
  · intro f hf hs
    simp [claimFood, hf, claimChecksAndWrite, hs]
  · intro f hf hs hd
    simp [claimFood, hf, claimChecksAndWrite, hs, hd]
  · intro f hf hs hd
    simp [claimFood, hf, claimChecksAndWrite, hs, hd]

/-- A listing used in concrete checks: id 0, donor 1, available. -/
def f0 : Food :=
  ⟨0, "Bread", "", "", "12 Main St", none, none, Status.available, 1, none,
    86400000, 0⟩

/-- A store holding just `f0`. -/
def dbC : DB := ⟨[f0], [], 1, 0, 0⟩

/-- Witness: `claim_spec` exercised at a concrete input: user 2 claims `f0`. -/
theorem claim_spec_witness :
    claimFood dbC 2 "Bea" 0 =
      ({ dbC with
          foods := saveFood dbC.foods
            { f0 with status := Status.claimed, claimedBy := some 2 }
          notifs := dbC.notifs ++
            [mkClaimNotif dbC
              { f0 with status := Status.claimed, claimedBy := some 2 } 2 "Bea"]
          nextNotifId := dbC.nextNotifId + 1 },
        Except.ok { f0 with status := Status.claimed, claimedBy := some 2 }) :=
  (claim_spec dbC 2 "Bea" 0).2.2.2 f0 (by decide) (by decide) (by decide)

/-- Claim C5: When a claim or complete call fails, the entire store — the
listing's status and `claimedBy` included — is exactly as before the
call, and no notification is created: every error path returns before
any write. -/
theorem claim_complete_error_unchanged (db : DB) (uid : Nat)
    (userName : String) (id : Nat) (e : HErr) :
    ((claimFood db uid userName id).2 = Except.error e →
      (claimFood db uid userName id).1 = db) ∧
    ((completeFood db uid id).2 = Except.error e →
      (completeFood db uid id).1 = db) := by
  constructor
  · intro h
    unfold claimFood claimChecksAndWrite at h ⊢
    cases hf : findFood db id with
    | none => rfl
    | some f =>
      simp only [hf] at h ⊢
      split_ifs at h ⊢ <;> rfl
  · intro h
    unfold completeFood at h ⊢
    cases hf : findFood db id with
    | none => rfl
    | some f =>
      simp only [hf] at h ⊢
      split_ifs at h ⊢ <;>
        first
          | rfl
          | (cases hcb : f.claimedBy <;> simp [hcb] at h)

/-- Witness: `claim_complete_error_unchanged` at a concrete input: the donor tries
to claim their own listing, and tries to complete it while `available`. -/
theorem claim_complete_error_unchanged_witness :
    (claimFood dbC 1 "Al" 0).1 = dbC ∧ (completeFood dbC 1 0).1 = dbC :=
  ⟨(claim_complete_error_unchanged dbC 1 "Al" 0 cannotClaimOwnErr).1 rfl,
   (claim_complete_error_unchanged dbC 1 "Al" 0 mustBeClaimedErr).2 rfl⟩

/-- After the one document with `_id = id` is erased, no lookup for `id`
succeeds, provided the stored ids are duplicate-free. -/
theorem find?_fid_eraseP (foods : List Food) (id : Nat)
    (hnd : (foods.map Food.fid).Nodup) :
    (foods.eraseP (fun g => g.fid = id)).find? (fun g => g.fid = id) = none := by
  induction foods with
  | nil => rfl
  | cons g t ih =>
    rw [List.map_cons, List.nodup_cons] at hnd
    by_cases h : g.fid = id
    · rw [List.eraseP_cons_of_pos (by simp [h])]
      rw [List.find?_eq_none]
      intro x hx
      simp only [decide_eq_true_eq]
      intro hxid
      exact hnd.1 (h ▸ hxid ▸ List.mem_map_of_mem Food.fid hx)
    · rw [List.eraseP_cons_of_neg (by simp [h])]
      rw [List.find?_cons_of_neg _ (by simp [h])]
      exact ih hnd.2

/-- Claim C9: `DELETE /:id`: 404 when the listing is absent; 403 when the
caller is not the donor; otherwise it succeeds with no condition on the
listing's status (the quantifier ranges over listings of every status,
`claimed` and `completed` included), and — when stored ids are
duplicate-free, as id assignment guarantees — a subsequent `GET /:id`
returns 404. -/
theorem delete_spec (db : DB) (uid : Nat) (id : Nat) :
    (findFood db id = none →
      deleteFood db uid id = (db, Except.error foodNotFoundErr)) ∧
    (∀ f, findFood db id = some f → f.donor ≠ uid →
      deleteFood db uid id = (db, Except.error notAuthorizedDeleteErr)) ∧
    (∀ f, findFood db id = some f → f.donor = uid →
      (deleteFood db uid id).2 = Except.ok () ∧
      ((db.foods.map Food.fid).Nodup →
        getFood (deleteFood db uid id).1 id = Except.error foodNotFoundErr)) := by
  refine ⟨?_, ?_, ?_⟩
  · intro h
    simp [deleteFood, h]
  · intro f hf hd
    simp [deleteFood, hf, hd]
  · intro f hf hd
    have hfid : f.fid = id := by
      have := List.find?_some hf
      simpa using this
    constructor
    · simp [deleteFood, hf, hd]
    · intro hnd
      have herase := find?_fid_eraseP db.foods id hnd
      simp only [deleteFood, hf]
      rw [if_neg (by simp [hd])]
      simp only [getFood, findFood]
      rw [hfid, herase]

/-- Witness: `delete_spec` at a concrete input: the donor deletes `f0` and the
subsequent lookup fails. -/
theorem delete_spec_witness :
    (deleteFood dbC 1 0).2 = Except.ok () ∧
    getFood (deleteFood dbC 1 0).1 0 = Except.error foodNotFoundErr :=
  ⟨((delete_spec dbC 1 0).2.2 f0 (by decide) (by decide)).1,
   ((delete_spec dbC 1 0).2.2 f0 (by decide) (by decide)).2 (by decide)⟩

/-- Claim C6, amended: `POST /`: 400 `ValidationError` when `name` or
`address` is missing or empty; 500 when the fields pass the route check
but fail `foodSchema` validation (whitespace-only or over-length values);
otherwise the created listing has `status = available`,
`claimedBy = null`, `donor = caller`, and
`expiresAt = creation time + 24h`. -/
theorem create_spec (db : DB) (uid : Nat) (req : CreateReq) :
    ((falsyStr req.name || falsyStr req.address) = true →
      createFood db uid req = (db, Except.error provideNameAddressErr)) ∧
    ((falsyStr req.name || falsyStr req.address) = false →
      schemaOk (req.name.getD "") (req.description.getD "")
        (req.address.getD "") = false →
      createFood db uid req = (db, Except.error createServerErr)) ∧
    ((falsyStr req.name || falsyStr req.address) = false →
      schemaOk (req.name.getD "") (req.description.getD "")
        (req.address.getD "") = true →
      ∃ f, createFood db uid req =
          ({ db with
              foods := db.foods ++ [f]
              nextFoodId := db.nextFoodId + 1 },
            Except.ok f) ∧
        f.status = Status.available ∧ f.claimedBy = none ∧ f.donor = uid ∧
        f.expiresAt = db.now + 24 * 60 * 60 * 1000 ∧ f.createdAt = db.now) := by
  refine ⟨?_, ?_, ?_⟩
  · intro h
    simp [createFood, h]
  · intro h hs
    simp [createFood, h, hs]
  · intro h hs
    refine ⟨{ fid := db.nextFoodId
              name := trimStr (req.name.getD "")
              description := trimStr (req.description.getD "")
              photo := req.photo.getD ""
              address := trimStr (req.address.getD "")
              latitude := req.latitude
              longitude := req.longitude
              status := Status.available
              donor := uid
              claimedBy := none
              expiresAt := db.now + 24 * 60 * 60 * 1000
              createdAt := db.now }, ?_, rfl, rfl, rfl, rfl, rfl⟩
    simp [createFood, h, hs]

/-- The create request of the spec's round-trip test:
`name = "Bread"`, `address = "12 Main St"`. -/
def reqA : CreateReq := ⟨some "Bread", none, some "12 Main St", none, none, none⟩

/-- Witness: `create_spec` at a concrete input: `reqA` posted by user 1 to the
empty store. -/
theorem create_spec_witness :
    ∃ f, createFood DB.empty 1 reqA =
        ({ DB.empty with
            foods := DB.empty.foods ++ [f]
            nextFoodId := DB.empty.nextFoodId + 1 },
          Except.ok f) ∧
      f.status = Status.available ∧ f.claimedBy = none ∧ f.donor = 1 ∧
      f.expiresAt = DB.empty.now + 24 * 60 * 60 * 1000 ∧
      f.createdAt = DB.empty.now :=
  (create_spec DB.empty 1 reqA).2.2 (by decide) (by decide)

/-- A 101-character name: truthy in the route's `!name` check, but longer
than `foodSchema`'s `maxlength: 100`. -/
def longName : String := String.mk (List.replicate 101 'a')

set_option maxRecDepth 8000

/-- Counterexample to claim C6: A create call whose `name` and `address` are
both present and non-empty, yet which creates nothing and fails with the
500 catch-all rather than the 400 `ValidationError`: the claim's
"otherwise the created listing has status 'available', …" fails at this
input. -/
theorem create_long_name_rejected :
    createFood DB.empty 1
        { name := some longName, description := none, address := some "x",
          latitude := none, longitude := none, photo := none } =
      (DB.empty, Except.error createServerErr) ∧
    falsyStr (some longName) = false ∧ falsyStr (some "x") = false :=
  ⟨rfl, rfl, rfl⟩

/-- A donor patch that sets `status` directly, as `PUT /:id`'s
`updates = { ...req.body }` permits. -/
def patchClaimed : UpdateReq :=
  ⟨none, none, none, none, none, none, some Status.claimed, none⟩

/-- Counterexample to claim C2: A state reached by two operations — user 1
creates a listing, then updates it with body `{ status: 'claimed' }` —
in which the listing has `status = claimed` but `claimerId = null`: the
invariant does not hold after every update. -/
theorem inv_broken_by_update :
    dbInv (runOps DB.empty [Op.create 1 reqA, Op.update 1 0 patchClaimed]) =
      false := rfl

/-- Restriction under which the invariant survives a request: an update's
body must not contain `status` or `claimedBy`; every other operation is
unrestricted. -/
def opSafe : Op → Prop
  | Op.update _ _ p => p.status = none ∧ p.claimedBy = none
  | _ => True

/-- The invariant, memberwise. -/
theorem dbInv_iff (db : DB) :
    dbInv db = true ↔ ∀ f ∈ db.foods, listingInv f = true := by
  simp [dbInv, List.all_eq_true]

/-- Writing back a document that satisfies the invariant preserves the
store-wide invariant. -/
theorem all_saveFood (foods : List Food) (f' : Food)
    (hall : ∀ g ∈ foods, listingInv g = true)
    (hf' : listingInv f' = true) :
    ∀ g ∈ saveFood foods f', listingInv g = true := by
  intro g hg
  rw [saveFood, List.mem_map] at hg
  obtain ⟨g0, hg0, rfl⟩ := hg
  by_cases h : g0.fid = f'.fid
  · simpa [h] using hf'
  · simpa [h] using hall g0 hg0

/-- Claim C2, amended: The invariant "`claimerId` is non-null iff
`status ∈ {claimed, completed}`" is preserved by create, delete, claim,
complete and mark-all-read, and by every update whose body does not
contain `status` or `claimedBy`; by `inv_broken_by_update` it is not
preserved by arbitrary updates. -/
theorem inv_preserved (db : DB) (op : Op) (hinv : dbInv db = true)
    (hsafe : opSafe op) : dbInv (applyOp db op) = true := by
  have hmem : ∀ f ∈ db.foods, listingInv f = true := (dbInv_iff db).mp hinv
  cases op with
  | create uid req =>
    simp only [applyOp, createFood]
    split_ifs with h1 h2
    · exact hinv
    · rw [dbInv_iff]
      intro g hg
      simp only [List.mem_append, List.mem_singleton] at hg
      rcases hg with hg | rfl
      · exact hmem g hg
      · rfl
    · exact hinv
  | update uid id p =>
    obtain ⟨hs, hc⟩ := hsafe
    simp only [applyOp, updateFood]
    cases hf : findFood db id with
    | none => exact hinv
    | some f =>
      dsimp only
      split_ifs with hd hv
      · exact hinv
      · rw [dbInv_iff]
        refine all_saveFood db.foods _ hmem ?_
        have : listingInv (applyUpdates f (trimReq p)) = listingInv f := by
          simp [applyUpdates, trimReq, listingInv, hs, hc]
        rw [this]
        exact hmem f (List.mem_of_find?_eq_some hf)
      · exact hinv
  | del uid id =>
    simp only [applyOp, deleteFood]
    cases hf : findFood db id with
    | none => exact hinv
    | some f =>
      dsimp only
      split_ifs with hd
      · exact hinv
      · rw [dbInv_iff]
        intro g hg
        exact hmem g ((List.eraseP_sublist db.foods).subset hg)
  | claim uid userName id =>
    simp only [applyOp, claimFood, claimChecksAndWrite]
    cases hf : findFood db id with
    | none => exact hinv
    | some f =>
      dsimp only
      split_ifs with h1 h2
      · exact hinv
      · exact hinv
      · rw [dbInv_iff]
        exact all_saveFood db.foods _ hmem rfl
  | complete uid id =>
    simp only [applyOp, completeFood]
    cases hf : findFood db id with
    | none => exact hinv
    | some f =>
      dsimp only
      split_ifs with h1 h2
      · exact hinv
      · exact hinv
      · have hfin := hmem f (List.mem_of_find?_eq_some hf)
        have hst : f.status = Status.claimed := not_not.mp h2
        cases hcb : f.claimedBy with
        | none =>
          rw [listingInv, hcb, hst] at hfin
          simp [claimedOrCompleted] at hfin
        | some c =>
          simp only [hcb]
          rw [dbInv_iff]
          refine all_saveFood db.foods _ hmem ?_
          simp [listingInv, hcb, claimedOrCompleted]
  | readAll uid => exact hinv

/-- Witness: `inv_preserved` at a concrete input: user 2 claims `f0` in `dbC`. -/
theorem inv_preserved_witness :
    dbInv (applyOp dbC (Op.claim 2 "Bea" 0)) = true :=
  inv_preserved dbC (Op.claim 2 "Bea" 0) (by decide) trivial

/-- Two concurrent claim requests on one listing, under the interleaving
in which both `await Food.findById(...)` loads resolve before either
handler writes — a schedule the event loop permits because each handler
suspends between its load and its `save()`. The first caller's checks and
writes then run against its snapshot, followed by the second caller's
checks against its own (now stale) snapshot and its writes over the first
caller's. -/
def claimRace (db : DB) (id : Nat) (u1 : Nat) (n1 : String)
    (u2 : Nat) (n2 : String) :
    Except HErr Food × Except HErr Food × DB :=
  let s1 := findFood db id
  let s2 := findFood db id
  let p1 := match s1 with
    | none => (db, Except.error foodNotFoundErr)
    | some f => claimChecksAndWrite db f u1 n1
  let p2 := match s2 with
    | none => (p1.1, Except.error foodNotFoundErr)
    | some f => claimChecksAndWrite p1.1 f u2 n2
  (p1.2, p2.2, p2.1)

/-- Claim C3: The claim the spec states as required behavior fails on the
code: when users 2 and 3 claim listing `f0` concurrently and both loads
precede both writes, *both* callers receive a success response carrying
their own id as `claimedBy` (neither gets `InvalidState`), the second
write silently overwrites the first claimer, and the donor receives two
`claim_request` notifications. -/
theorem claim_race_both_succeed :
    (claimRace dbC 0 2 "Bea" 3 "Cal").1 =
        Except.ok { f0 with status := Status.claimed, claimedBy := some 2 } ∧
    (claimRace dbC 0 2 "Bea" 3 "Cal").2.1 =
        Except.ok { f0 with status := Status.claimed, claimedBy := some 3 } ∧
    findFood (claimRace dbC 0 2 "Bea" 3 "Cal").2.2 0 =
        some { f0 with status := Status.claimed, claimedBy := some 3 } ∧
    ((claimRace dbC 0 2 "Bea" 3 "Cal").2.2.notifs.filter
        (fun n => n.ntype = NotifType.claim_request)).length = 2 :=
  ⟨rfl, rfl, rfl, rfl⟩

/-- Claim C4, amended: `PUT /:id/complete`: 404 when the listing is absent;
403 unless the caller is the donor; 400 unless the status is `claimed`;
otherwise it persists `status = completed` and returns the updated
listing, creating a `food_completed` notification addressed to the
claimer exactly when `claimedBy` is present — and no notification when it
is not. -/
theorem complete_spec (db : DB) (uid : Nat) (id : Nat) :
    (findFood db id = none →
      completeFood db uid id = (db, Except.error foodNotFoundErr)) ∧
    (∀ f, findFood db id = some f → f.donor ≠ uid →
      completeFood db uid id = (db, Except.error onlyDonorCompleteErr)) ∧
    (∀ f, findFood db id = some f → f.donor = uid →
      f.status ≠ Status.claimed →
      completeFood db uid id = (db, Except.error mustBeClaimedErr)) ∧
    (∀ f c, findFood db id = some f → f.donor = uid →
      f.status = Status.claimed → f.claimedBy = some c →
      completeFood db uid id =
        ({ db with
            foods := saveFood db.foods { f with status := Status.completed }
            notifs := db.notifs ++
              [mkCompleteNotif db { f with status := Status.completed } c uid]
            nextNotifId := db.nextNotifId + 1 },
          Except.ok { f with status := Status.completed })) ∧
    (∀ f, findFood db id = some f → f.donor = uid →
      f.status = Status.claimed → f.claimedBy = none →
      completeFood db uid id =
        ({ db with
            foods := saveFood db.foods { f with status := Status.completed } },
          Except.ok { f with status := Status.completed })) := by
  refine ⟨?_, ?_, ?_, ?_, ?_⟩
  · intro h
    simp [completeFood, h]
  · intro f hf hd
    simp [completeFood, hf, hd]
  · intro f hf hd hs
    simp [completeFood, hf, hd, hs]
  · intro f c hf hd hs hc
    simp [completeFood, hf, hd, hs, hc]
  · intro f hf hd hs hc
    simp [completeFood, hf, hd, hs, hc]

/-- The state of `inv_broken_by_update`: one listing with
`status = claimed` but `claimedBy = null`, reached by a create followed
by a donor update whose body is `{ status: 'claimed' }`. -/
def dbBroken : DB :=
  runOps DB.empty [Op.create 1 reqA, Op.update 1 0 patchClaimed]

/-- Counterexample to claim C4: In the reachable state `dbBroken`, `complete`
called by the donor succeeds — the listing becomes `completed` — yet
`claimedBy` is absent and *no* `food_completed` notification is created,
contradicting the claim's "since claimerId is present — creates a
food_completed notification". -/
theorem complete_no_notification :
    (∃ g, (completeFood dbBroken 1 0).2 = Except.ok g ∧
      g.status = Status.completed ∧ g.claimedBy = none) ∧
    (completeFood dbBroken 1 0).1.notifs = [] :=
  ⟨⟨_, rfl, rfl, rfl⟩, rfl⟩

/-- A claimed listing: id 0, donor 1, claimer 2. -/
def f1 : Food :=
  ⟨0, "Soup", "", "", "1 Oak Rd", none, none, Status.claimed, 1, some 2,
    86400000, 0⟩

/-- A store holding just `f1`. -/
def dbD : DB := ⟨[f1], [], 1, 0, 0⟩

/-- Witness: `complete_spec` at a concrete input: the donor completes the claimed
listing `f1` and the claimer is notified. -/
theorem complete_spec_witness :
    completeFood dbD 1 0 =
      ({ dbD with
          foods := saveFood dbD.foods { f1 with status := Status.completed }
          notifs := dbD.notifs ++
            [mkCompleteNotif dbD { f1 with status := Status.completed } 2 1]
          nextNotifId := dbD.nextNotifId + 1 },
        Except.ok { f1 with status := Status.completed }) :=
  (complete_spec dbD 1 0).2.2.2.1 f1 2 (by decide) (by decide) (by decide)
    (by decide)

/-- Lookup after a write-back: the document written by `saveFood` is the
one a subsequent `findById` for the same id returns. -/
theorem findFood_saveFood (foods : List Food) (f f' : Food) (id : Nat)
    (hf : foods.find? (fun g => g.fid = id) = some f)
    (hfid : f'.fid = f.fid) :
    (saveFood foods f').find? (fun g => g.fid = id) = some f' := by
  induction foods with
  | nil => simp at hf
  | cons g t ih =>
    by_cases h : g.fid = id
    · rw [List.find?_cons_of_pos _ (by simp [h])] at hf
      have hgf : g = f := by injection hf
      rw [saveFood, List.map_cons,
        if_pos (show g.fid = f'.fid by rw [hfid, hgf]),
        List.find?_cons_of_pos _
          (by simp only [decide_eq_true_eq]; rw [hfid, ← hgf]; exact h)]
    · rw [List.find?_cons_of_neg _ (by simp [h])] at hf
      have hfidl : f.fid = id := by
        have := List.find?_some hf
        simpa using this
      have hne : g.fid ≠ f'.fid := by
        rw [hfid, hfidl]
        exact h
      rw [saveFood, List.map_cons, if_neg hne,
        List.find?_cons_of_neg _ (by simp [h])]
      exact ih hf

/-- A donor patch carrying a 101-character `name` alongside `status` and
`claimedBy`: it passes the route's checks but fails `maxlength: 100`
under `runValidators: true`. -/
def patchBad : UpdateReq :=
  ⟨some longName, none, none, none, none, none, some Status.completed,
    some (some 7)⟩

/-- A donor patch whose `name` has surrounding whitespace. -/
def patchPad : UpdateReq :=
  ⟨some " Rye ", none, none, none, none, none, none, none⟩

/-- Counterexample to claim C10: two donor updates on the present listing
`f0` at which "every field present in the request body is written
verbatim" fails. With `patchBad` (over-length `name` plus `status` and
`claimedBy`), `findByIdAndUpdate`'s update validator throws, the route
returns 500, and nothing — not even the valid `status`/`claimedBy`
fields — is written; with `patchPad`, the `trim` setter stores `"Rye"`,
not the verbatim `" Rye "`. -/
theorem update_not_verbatim :
    updateFood dbC 1 0 patchBad = (dbC, Except.error serverErr) ∧
    (∃ g, (updateFood dbC 1 0 patchPad).2 = Except.ok g ∧
      g.name = "Rye") ∧
    findFood dbC 0 = some f0 ∧ f0.donor = 1 :=
  ⟨rfl, ⟨_, rfl, rfl⟩, rfl, rfl⟩

/-- Claim C10, amended: `PUT /:id` called by the donor spreads the whole
request body into `findByIdAndUpdate(id, { ...req.body },
{ runValidators: true })`. When every patched path passes the update
validators, each present field is written over the document (string
paths after their `trim` setter) — `status` and `claimedBy` included, so
a donor patch sets them directly, outside the claim/complete
transitions, and a subsequent lookup serves the patched values. When a
patched path fails validation, the route returns 500 and nothing is
written. -/
theorem update_mass_assignment (db : DB) (uid : Nat) (id : Nat)
    (p : UpdateReq) :
    (∀ f, findFood db id = some f → f.donor = uid → updateOk p = true →
      updateFood db uid id p =
        ({ db with foods := saveFood db.foods (applyUpdates f (trimReq p)) },
          Except.ok (applyUpdates f (trimReq p)))) ∧
    (∀ f s c, findFood db id = some f → f.donor = uid → updateOk p = true →
      p.status = some s → p.claimedBy = some c →
      findFood (updateFood db uid id p).1 id =
        some (applyUpdates f (trimReq p)) ∧
      (applyUpdates f (trimReq p)).status = s ∧
      (applyUpdates f (trimReq p)).claimedBy = c) ∧
    (∀ f, findFood db id = some f → f.donor = uid → updateOk p = false →
      updateFood db uid id p = (db, Except.error serverErr)) := by
  have hbase : ∀ f, findFood db id = some f → f.donor = uid →
      updateOk p = true →
      updateFood db uid id p =
        ({ db with foods := saveFood db.foods (applyUpdates f (trimReq p)) },
          Except.ok (applyUpdates f (trimReq p))) := by
    intro f hf hd hv
    simp [updateFood, hf, hd, hv]
  refine ⟨hbase, ?_, ?_⟩
  · intro f s c hf hd hv hs hc
    refine ⟨?_, by simp [applyUpdates, trimReq, hs],
      by simp [applyUpdates, trimReq, hc]⟩
    rw [hbase f hf hd hv]
    exact findFood_saveFood db.foods f (applyUpdates f (trimReq p)) id hf rfl
  · intro f hf hd hv
    simp [updateFood, hf, hd, hv]

/-- A donor patch setting both `status` and `claimedBy` directly. -/
def patchBoth : UpdateReq :=
  ⟨none, none, none, none, none, none, some Status.completed, some (some 7)⟩

/-- Witness: `update_mass_assignment` at a concrete input: the donor patches `f0`
straight from `available` to `completed` with a claimer never set by a
claim call. -/
theorem update_mass_assignment_witness :
    findFood (updateFood dbC 1 0 patchBoth).1 0 =
        some (applyUpdates f0 (trimReq patchBoth)) ∧
    (applyUpdates f0 (trimReq patchBoth)).status = Status.completed ∧
    (applyUpdates f0 (trimReq patchBoth)).claimedBy = some 7 :=
  (update_mass_assignment dbC 1 0 patchBoth).2.1 f0 Status.completed (some 7)
    (by decide) rfl rfl rfl rfl

end FoodShare
